import Mathlib

/-!
Verification of the face-QR access-control backend.

Shallow embedding of the core verification pipeline:
- `liveness.py`  : blink detection over an ordered frame sequence;
- `face_utils.py`: face comparison against the stored encoding;
- `database.py`  : user creation (two-phase token), token lookup, event query;
- `app.py`       : the `/verify` orchestrator producing one audited outcome.

External numeric collaborators (base64/image decoding, mediapipe landmarks,
face_recognition embeddings, sqlite) are abstracted: a frame is represented by
what the provider returns for it, instants by integers, and the persistent
store by explicit lists of rows.
-/

set_option maxHeartbeats 1000000

namespace FaceQR

/-! ### Liveness detector (src/backend/liveness.py) -/

/-- Abstraction of one submitted frame string as the liveness detector sees it:
base64/image decoding fails (`_decode_base64_image` returns `None`), or the
frame decodes but mediapipe finds no landmarks (`multi_face_landmarks` empty),
or landmarks are found and the two-eye averaged eye-aspect-ratio is `ear`. -/
inductive Frame
  | undecodable
  | noFace
  | face (ear : ℚ)
  deriving DecidableEq

/-- `EAR_THRESHOLD = 0.21` from liveness.py. -/
def EAR_THRESHOLD : ℚ := 21/100

/-- `CONSEC_FRAMES_FOR_BLINK = 2` from liveness.py. -/
def CONSEC_FRAMES_FOR_BLINK : Nat := 2

/-- A frame survives `_decode_base64_image` (is appended to `decoded_frames`). -/
def Frame.isDecodable : Frame → Bool
  | .undecodable => false
  | _ => true

/-- The frame yields landmarks and its averaged EAR is strictly below the
threshold (the `ear < EAR_THRESHOLD` branch of the scan loop). -/
def Frame.isLow : Frame → Bool
  | .face ear => decide (ear < EAR_THRESHOLD)
  | _ => false

/-- The per-frame scan loop of `is_live_from_base64_frames`: `consec` is
`consec_below`, `blink` is `blink_detected`.  A frame with no landmarks resets
the counter and continues; a low-EAR frame increments it and records a blink
once the counter reaches `CONSEC_FRAMES_FOR_BLINK`; a high-EAR frame resets. -/
def livenessLoop : List Frame → Nat → Bool → Bool
  | [], _, blink => blink
  | f :: rest, consec, blink =>
    match f with
    | .face ear =>
      if ear < EAR_THRESHOLD then
        livenessLoop rest (consec + 1) (blink || decide (CONSEC_FRAMES_FOR_BLINK ≤ consec + 1))
      else
        livenessLoop rest 0 blink
    | _ => livenessLoop rest 0 blink

/-- `is_live_from_base64_frames` from liveness.py: drop frames that fail
decoding, fail fast when fewer than 3 decoded frames remain, otherwise scan
for a blink run. -/
def is_live_from_base64_frames (frames : List Frame) : Bool :=
  let decoded := frames.filter Frame.isDecodable
  if decoded.length < 3 then false
  else livenessLoop decoded 0 false

/-- Specification-side predicate: somewhere in `fs` two consecutive frames
both have detected landmarks and averaged EAR strictly below the threshold
(a blink run of length `CONSEC_FRAMES_FOR_BLINK = 2`). -/
def HasBlinkRun (fs : List Frame) : Prop :=
  ∃ pre post : List Frame, ∃ f g : Frame,
    fs = pre ++ f :: g :: post ∧ f.isLow = true ∧ g.isLow = true

/-- Boolean check for an adjacent pair of low-EAR frames. -/
def lowPairB : List Frame → Bool
  | [] => false
  | [_] => false
  | f :: g :: rest => (f.isLow && g.isLow) || lowPairB (g :: rest)

/-- Whether the head frame (if any) is a low-EAR frame. -/
def headLow : List Frame → Bool
  | [] => false
  | f :: _ => f.isLow

/-! ### Face matcher (src/backend/face_utils.py) -/

/-- Abstraction of one frame string as `compare_face_with_user` processes it:
the base64 payload fails `base64.b64decode` (which raises), or the bytes
decode but `cv2.imdecode` returns `None`, or the image decodes but
`face_recognition` finds no encodings, or an encoding is extracted. -/
inductive FaceFrame
  | badB64
  | badImage
  | noFace
  | face (encoding : List ℚ)
  deriving DecidableEq

/-- Squared Euclidean distance between two embeddings
(`face_recognition.face_distance` squared, the `zip` mirroring the
componentwise subtraction of numpy arrays). -/
def face_distance_sq (a b : List ℚ) : ℚ :=
  ((a.zip b).map (fun p => (p.1 - p.2) * (p.1 - p.2))).sum

/-- The `0.6` comparison threshold of `compare_face_with_user`. -/
def FACE_MATCH_THRESHOLD : ℚ := 6/10

/-- `compare_face_with_user` from face_utils.py, with the stored user encoding
already deserialized.  `_decode_base64_to_rgb` has no exception guard around
`b64decode`, so a malformed base64 payload raises (`Except.error`); an
undecodable image or a frame without a detected face returns `False`;
otherwise the Euclidean distance against the stored encoding is compared
strictly against the threshold (stated on squares to stay in ℚ). -/
def compare_face_with_user (known_encoding : List ℚ) : FaceFrame → Except Unit Bool
  | .badB64 => .error ()
  | .badImage => .ok false
  | .noFace => .ok false
  | .face enc =>
      .ok (decide (face_distance_sq enc known_encoding < FACE_MATCH_THRESHOLD * FACE_MATCH_THRESHOLD))

/-! ### Persistent store: users table (src/backend/database.py) -/

/-- One row of the `users` table (after the `_ensure_column` migrations). -/
structure UserRow where
  id : Nat
  name : String
  qr_code : String
  face_encoding : String
  first_name : String
  last_name : String
  qr_expires_at : Option String
  created_at : Option String
  updated_at : Option String
  deriving DecidableEq

/-- The `users` table: its rows plus the next AUTOINCREMENT id. -/
structure UsersTable where
  rows : List UserRow
  nextId : Nat
  deriving DecidableEq

/-- Display name as computed by `create_user`:
`" ".join([p for p in [first_name, last_name] if p]).strip() or "Pracownik"`
on the already-stripped name parts. -/
def full_name_of (first last : String) : String :=
  let parts := [first.trim, last.trim].filter (fun p => p ≠ "")
  let joined := (String.intercalate " " parts).trim
  if joined = "" then "Pracownik" else joined

/-- The deterministic final token assigned once the row id is known:
the literal prefix `EMP:` followed by the decimal rendering of the id. -/
def empToken (n : Nat) : String := "EMP:" ++ Nat.repr n

/-- `create_user` from database.py: insert the row with the temporary
placeholder token `tmp_qr`, read the assigned id, then update that row's
token to the id-derived value.  Returns `((user_id, final_qr), table)`. -/
def create_user (st : UsersTable) (first_name last_name face_encoding_json : String)
    (qr_expires_at_iso : Option String) (created_at_iso : String) (tmp_qr : String) :
    (Nat × String) × UsersTable :=
  let full := full_name_of first_name last_name
  let uid := st.nextId
  let row0 : UserRow :=
    { id := uid, name := full, qr_code := tmp_qr, face_encoding := face_encoding_json,
      first_name := first_name.trim, last_name := last_name.trim,
      qr_expires_at := qr_expires_at_iso,
      created_at := some created_at_iso, updated_at := some created_at_iso }
  let st1 : UsersTable := { rows := st.rows ++ [row0], nextId := uid + 1 }
  let finalQr := empToken uid
  let st2 : UsersTable :=
    { st1 with rows := st1.rows.map (fun r =>
        if r.id = uid then { r with qr_code := finalQr, updated_at := some created_at_iso } else r) }
  ((uid, finalQr), st2)

/-- `get_user_by_qr` from database.py: exact match on the unique token. -/
def get_user_by_qr (st : UsersTable) (qr : String) : Option UserRow :=
  st.rows.find? (fun r => r.qr_code = qr)

/-! #### Injectivity of the decimal token rendering -/

/-- Specification of core's decimal digit-character rendering via
`Nat.digits`. -/
def decChars (n : Nat) : List Char :=
  if n = 0 then ['0'] else ((Nat.digits 10 n).map Nat.digitChar).reverse

/-! ### Persistent store: events table and audit query (src/backend/database.py) -/

/-- One stored row of the `events` table.  Timestamps are ISO strings and the
SQL comparisons on them are textual, which coincides with chronological order
for this fixed-width format. -/
structure EventRow where
  id : Nat
  user_id : Option Nat
  timestamp : String
  direction : String
  status : String
  error_code : Option String
  qr_code : Option String
  attempt_image_b64 : Option String
  deriving DecidableEq

/-- One WHERE condition of `list_events`: the condition is appended to the
query only when the corresponding Python argument is truthy (not `None` and
not the empty string). -/
def condHolds (arg : Option String) (cond : String → Bool) : Bool :=
  match arg with
  | none => true
  | some s => if s = "" then true else cond s

/-- The WHERE clause of `list_events`: optional `timestamp >= start_iso`,
optional `timestamp <= end_iso`, optional `status = status`. -/
def eventMatches (start_iso end_iso status : Option String) (e : EventRow) : Bool :=
  condHolds start_iso (fun s => decide (s ≤ e.timestamp)) &&
  condHolds end_iso (fun s => decide (e.timestamp ≤ s)) &&
  condHolds status (fun s => decide (e.status = s))

/-- Sort key for `ORDER BY e.timestamp DESC, e.id DESC`: lexicographic on
(timestamp, id), larger key first. -/
def eventKey (e : EventRow) : Lex (String × Nat) := toLex (e.timestamp, e.id)

/-- The ORDER BY relation: `a` may precede `b` when `a`'s key is at least
`b`'s. -/
def eventOrder (a b : EventRow) : Prop := eventKey b ≤ eventKey a

instance : DecidableRel eventOrder := fun a b =>
  inferInstanceAs (Decidable (eventKey b ≤ eventKey a))

instance : IsTotal EventRow eventOrder :=
  ⟨fun a b => le_total (eventKey b) (eventKey a)⟩

instance : IsTrans EventRow eventOrder :=
  ⟨fun _ _ _ h1 h2 => le_trans h2 h1⟩

/-- `list_events` from database.py: filter by the optional conditions and
return the rows ordered by timestamp descending, id descending on ties. -/
def list_events (events : List EventRow) (start_iso end_iso status : Option String) :
    List EventRow :=
  List.insertionSort eventOrder (events.filter (eventMatches start_iso end_iso status))

/-! ### Verification orchestrator (the `/verify` route of src/backend/app.py) -/

/-- The terminal stage a `/verify` request reaches.  `FACE_RAISED` is the
stage in which `compare_face_with_user` itself raises (its base64 decode has
no guard), which escalates out of the handler. -/
inductive Outcome
  | MISSING_DATA
  | NO_BLINK
  | UNKNOWN_QR
  | QR_EXPIRED
  | FACE_MISMATCH
  | OK
  | FACE_RAISED
  deriving DecidableEq

/-- The row payload passed to `insert_event` (the stored row id is assigned
by the database and immaterial here). -/
structure Event where
  user_id : Option Nat
  timestamp : String
  direction : String
  status : String
  error_code : Option String
  qr_code : Option String
  attempt_image_b64 : Option String
  deriving DecidableEq

def mkEvent (uid : Option Nat) (ts dir st : String) (err qr img : Option String) : Event :=
  { user_id := uid, timestamp := ts, direction := dir, status := st,
    error_code := err, qr_code := qr, attempt_image_b64 := img }

/-- External collaborators of the `/verify` handler, abstracted: the liveness
verdict on the submitted frame strings, the token lookup, ISO-instant parsing
(`datetime.fromisoformat`, `none` when it raises), the current instant and its
ISO rendering, the face comparison (`Except.error` when it raises), and
whether `insert_event` succeeds during this request. -/
structure Deps where
  isLive : List String → Bool
  getUser : String → Option UserRow
  parseIso : String → Option Int
  now : Int
  nowIso : String
  faceCmp : String → String → Except Unit Bool
  insertOk : Bool

/-- The JSON body of a `/verify` request: `qr_code`, `frames`, `direction`
(each possibly absent). -/
structure Request where
  qr_code : Option String
  frames : List String
  direction : Option String

/-- Python's `str.strip()`: drop whitespace from both ends. -/
def pyStrip (s : String) : String :=
  ((s.data.dropWhile Char.isWhitespace).reverse.dropWhile Char.isWhitespace).reverse.asString

/-- Python's `str.upper()` (ASCII upcasing as used for direction tags). -/
def pyUpper (s : String) : String := (s.data.map Char.toUpper).asString

/-- `(data.get("qr_code") or "").strip()`. -/
def qrOf (req : Request) : String :=
  pyStrip (match req.qr_code with | none => "" | some s => s)

/-- `(data.get("direction") or "IN").upper()`, then anything other than
`IN`/`OUT` becomes `UNKNOWN`.  A missing or empty direction is falsy in
Python and therefore defaults to `IN` before the upper-casing. -/
def normDirection (d : Option String) : String :=
  let raw := match d with
    | none => "IN"
    | some s => if s = "" then "IN" else s
  let up := pyUpper raw
  if up = "IN" ∨ up = "OUT" then up else "UNKNOWN"

/-- What the handler returns to the caller: the JSON `status` tag and the
HTTP code, or `none` when an unhandled exception escalates (Flask 500). -/
structure VerifyOutput where
  outcome : Outcome
  response : Option (String × Nat)
  written : List Event
  deriving DecidableEq

/-- The `/verify` handler of app.py.  Stage order: input validation (its
audit write is the only one wrapped in try/except), liveness, token lookup,
expiry (the whole block — parse, compare, audit write, return — sits inside
one try/except whose handler is `pass`, so a raising audit write silently
falls through to the face stage), face match, success.  On every other path a
raising `insert_event` escalates: no response, no row written. -/
def verify (req : Request) (d : Deps) : VerifyOutput :=
  let qr := qrOf req
  let dir := normDirection req.direction
  let lastFrame : Option String := req.frames.getLast?
  if qr = "" ∨ req.frames = [] then
    let written := if d.insertOk then
        [mkEvent none d.nowIso dir "FAIL" (some "MISSING_DATA")
          (if qr = "" then none else some qr) lastFrame]
      else []
    ⟨.MISSING_DATA, some ("error", 400), written⟩
  else if d.isLive req.frames = false then
    if d.insertOk then
      ⟨.NO_BLINK, some ("spoofing", 200),
        [mkEvent none d.nowIso dir "FAIL" (some "NO_BLINK") (some qr) lastFrame]⟩
    else ⟨.NO_BLINK, none, []⟩
  else
    match d.getUser qr with
    | none =>
      if d.insertOk then
        ⟨.UNKNOWN_QR, some ("fraud", 200),
          [mkEvent none d.nowIso dir "FAIL" (some "UNKNOWN_QR") (some qr) lastFrame]⟩
      else ⟨.UNKNOWN_QR, none, []⟩
    | some u =>
      let expiredHit : Bool := match u.qr_expires_at with
        | none => false
        | some s => if s = "" then false else
            match d.parseIso s with
            | none => false
            | some e => decide (e < d.now)
      if expiredHit && d.insertOk then
        ⟨.QR_EXPIRED, some ("expired", 200),
          [mkEvent (some u.id) d.nowIso dir "FAIL" (some "QR_EXPIRED") (some qr) lastFrame]⟩
      else
        match d.faceCmp u.face_encoding (lastFrame.getD "") with
        | .error _ => ⟨.FACE_RAISED, none, []⟩
        | .ok false =>
          if d.insertOk then
            ⟨.FACE_MISMATCH, some ("fraud", 200),
              [mkEvent (some u.id) d.nowIso dir "FAIL" (some "FACE_MISMATCH") (some qr) lastFrame]⟩
          else ⟨.FACE_MISMATCH, none, []⟩
        | .ok true =>
          if d.insertOk then
            ⟨.OK, some ("success", 200),
              [mkEvent (some u.id) d.nowIso dir "OK" none (some qr) none]⟩
          else ⟨.OK, none, []⟩

/-- The request proceeded past the expiry stage into face matching. -/
def reachedFaceStage : Outcome → Bool
  | .FACE_MISMATCH => true
  | .OK => true
  | .FACE_RAISED => true
  | _ => false

/-- The expiry test of the resolved user as computed inside the handler's
try/except: false when no expiry is stored, stored empty, parsing raises, or
the current instant is not strictly after the parsed instant. -/
def expiredHitOf (d : Deps) (u : UserRow) : Bool :=
  match u.qr_expires_at with
  | none => false
  | some s => if s = "" then false else
      match d.parseIso s with
      | none => false
      | some e => decide (e < d.now)

/-- Deps identical to `d` except that resolving `q` yields `u` with its
stored expiry cleared; used to state the fail-open property. -/
def withUserNoExpiry (d : Deps) (q : String) (u : UserRow) : Deps :=
  { d with getUser := fun x =>
      if x = q then some { u with qr_expires_at := none } else d.getUser x }

/-! ### Concrete fixtures used by witnesses and counterexamples -/

/-- Baseline collaborator bundle: nothing is live, no user resolves, no
instant parses, faces never match, the store is healthy. -/
def noDeps : Deps :=
  { isLive := fun _ => false, getUser := fun _ => none, parseIso := fun _ => none,
    now := 0, nowIso := "2024-01-01T00:00:00",
    faceCmp := fun _ _ => Except.ok false, insertOk := true }

/-- A sample enrolled identity used by concrete runs. -/
def sampleUser : UserRow :=
  { id := 7, name := "Jan Kowalski", qr_code := "EMP:7", face_encoding := "enc7",
    first_name := "Jan", last_name := "Kowalski",
    qr_expires_at := some "2024-01-01T23:59:59",
    created_at := some "2023-01-01T00:00:00", updated_at := some "2023-01-01T00:00:00" }

/-- Collaborators for runs that resolve `sampleUser` behind token `EMP:7`,
with its expiry parsing to instant 100 and the current instant 101. -/
def liveDeps : Deps :=
  { isLive := fun _ => true,
    getUser := fun q => if q = "EMP:7" then some sampleUser else none,
    parseIso := fun s => if s = "2024-01-01T23:59:59" then some 100 else none,
    now := 101, nowIso := "2024-01-02T00:00:01",
    faceCmp := fun _ _ => Except.ok true, insertOk := true }

/-- A sample request carrying token `EMP:7` and three frames. -/
def sampleReq : Request :=
  { qr_code := some "EMP:7", frames := ["f1", "f2", "f3"], direction := some "IN" }

/-- Collaborators where liveness passes but no token resolves. -/
def unknownDeps : Deps := { noDeps with isLive := fun _ => true }


/-- Collaborators for a run that reaches the face stage and mismatches. -/
def mismatchDeps : Deps :=
  { liveDeps with parseIso := fun _ => none, faceCmp := fun _ _ => Except.ok false }

/-- Collaborators where `sampleUser` is stored with an unparseable expiry. -/
def badExpiryDeps : Deps :=
  { liveDeps with
    getUser := fun q =>
      if q = "EMP:7" then some { sampleUser with qr_expires_at := some "not-a-date" }
      else none,
    parseIso := fun _ => none }

/-- Sample audit rows for the query witnesses (ids pairwise distinct, the two
rows of 2024-01-02 sharing a timestamp). -/
def sampleEv1 : EventRow :=
  { id := 1, user_id := some 7, timestamp := "2024-01-02T10:00:00", direction := "IN",
    status := "OK", error_code := none, qr_code := some "EMP:7", attempt_image_b64 := none }

def sampleEv2 : EventRow :=
  { id := 2, user_id := none, timestamp := "2024-01-02T10:00:00", direction := "OUT",
    status := "FAIL", error_code := some "NO_BLINK", qr_code := some "EMP:9",
    attempt_image_b64 := some "img" }

def sampleEv3 : EventRow :=
  { id := 3, user_id := none, timestamp := "2024-01-05T08:00:00", direction := "IN",
    status := "FAIL", error_code := some "UNKNOWN_QR", qr_code := some "EMP:9",
    attempt_image_b64 := some "img" }

/-! ### Helper lemmas -/

theorem lowPairB_cons (f : Frame) (rest : List Frame) :
    lowPairB (f :: rest) = ((f.isLow && headLow rest) || lowPairB rest) := by
  cases rest <;> simp [lowPairB, headLow]

theorem livenessLoop_eq (fs : List Frame) :
    ∀ c b, livenessLoop fs c b = (b || (decide (1 ≤ c) && headLow fs) || lowPairB fs) := by
  induction fs with
  | nil => intro c b; simp [livenessLoop, lowPairB, headLow]
  | cons f rest ih =>
    intro c b
    cases f with
    | undecodable =>
      simp only [livenessLoop, ih, lowPairB_cons]
      simp [headLow, Frame.isLow]
    | noFace =>
      simp only [livenessLoop, ih, lowPairB_cons]
      simp [headLow, Frame.isLow]
    | face ear =>
      by_cases h : ear < EAR_THRESHOLD
      · simp only [livenessLoop, if_pos h, ih, lowPairB_cons]
        have h2 : decide (CONSEC_FRAMES_FOR_BLINK ≤ c + 1) = decide (1 ≤ c) := by
          simp [CONSEC_FRAMES_FOR_BLINK, Nat.succ_le_succ_iff]
        have h3 : (Frame.face ear).isLow = true := by simp [Frame.isLow, h]
        rw [h2]
        simp only [headLow, h3]
        cases b <;> cases hc : decide (1 ≤ c) <;> cases hh : headLow rest <;>
          cases hp : lowPairB rest <;> simp
      · simp only [livenessLoop, if_neg h, ih, lowPairB_cons]
        have h3 : (Frame.face ear).isLow = false := by simp [Frame.isLow, h]
        simp [headLow, h3]

theorem lowPairB_iff (fs : List Frame) : lowPairB fs = true ↔ HasBlinkRun fs := by
  induction fs with
  | nil =>
    constructor
    · intro h; simp [lowPairB] at h
    · rintro ⟨pre, post, f, g, heq, -, -⟩
      simp at heq
  | cons f rest ih =>
    rw [lowPairB_cons, Bool.or_eq_true, Bool.and_eq_true]
    constructor
    · intro h
      rcases h with ⟨hf, hh⟩ | h2
      · cases rest with
        | nil => simp [headLow] at hh
        | cons g rest' =>
          exact ⟨[], rest', f, g, rfl, hf, by simpa [headLow] using hh⟩
      · rcases ih.mp h2 with ⟨pre, post, a, b, heq, ha, hb⟩
        exact ⟨f :: pre, post, a, b, by simp [heq], ha, hb⟩
    · rintro ⟨pre, post, a, b, heq, ha, hb⟩
      cases pre with
      | nil =>
        simp only [List.nil_append] at heq
        injection heq with h1 h2
        subst h1
        subst h2
        left
        exact ⟨ha, by simpa [headLow] using hb⟩
      | cons p pre' =>
        simp only [List.cons_append] at heq
        injection heq with h1 h2
        right
        exact ih.mpr ⟨pre', post, a, b, h2, ha, hb⟩

theorem is_live_iff (fs : List Frame) :
    is_live_from_base64_frames fs = true ↔
      (3 ≤ (fs.filter Frame.isDecodable).length ∧ HasBlinkRun (fs.filter Frame.isDecodable)) := by
  unfold is_live_from_base64_frames
  by_cases h : (fs.filter Frame.isDecodable).length < 3
  · simp only [if_pos h]
    constructor
    · intro hfalse; cases hfalse
    · rintro ⟨h3, -⟩; omega
  · simp only [if_neg h, livenessLoop_eq]
    have h3 : 3 ≤ (fs.filter Frame.isDecodable).length := by omega
    simp only [Bool.false_or]
    have : (decide (1 ≤ 0) && headLow (fs.filter Frame.isDecodable)) = false := by simp
    rw [this]
    simp only [Bool.false_or]
    rw [lowPairB_iff]
    exact ⟨fun hr => ⟨h3, hr⟩, fun hr => hr.2⟩

theorem digitChar_inj :
    ∀ d : Nat, d < 10 → ∀ e : Nat, e < 10 → Nat.digitChar d = Nat.digitChar e → d = e := by
  decide

theorem toDigitsCore_eq (fuel : Nat) :
    ∀ (n : Nat) (ds : List Char), n < fuel →
      Nat.toDigitsCore 10 fuel n ds = decChars n ++ ds := by
  induction fuel with
  | zero => intro n ds h; omega
  | succ fuel ih =>
    intro n ds h
    rw [Nat.toDigitsCore]
    by_cases h0 : n / 10 = 0
    · simp only [h0, if_pos]
      have hn : n < 10 := by omega
      by_cases hz : n = 0
      · subst hz
        have hc : Nat.digitChar (0 % 10) = '0' := by decide
        simp [decChars, hc]
      · have hd : Nat.digits 10 n = [n] := by
          rw [Nat.digits_def' (by norm_num : 1 < 10) (Nat.pos_of_ne_zero hz)]
          rw [Nat.mod_eq_of_lt hn, h0]
          simp
        simp [decChars, hz, hd, Nat.mod_eq_of_lt hn]
    · simp only [if_neg h0]
      have hpos : 0 < n := by
        rcases Nat.eq_zero_or_pos n with hz | hp
        · subst hz; simp at h0
        · exact hp
      have hlt : n / 10 < fuel := by
        have := Nat.div_lt_self hpos (by norm_num : 1 < 10)
        omega
      rw [ih (n / 10) _ hlt]
      have hd : Nat.digits 10 n = n % 10 :: Nat.digits 10 (n / 10) :=
        Nat.digits_def' (by norm_num : 1 < 10) hpos
      have hdz : decChars n = decChars (n / 10) ++ [Nat.digitChar (n % 10)] := by
        unfold decChars
        rw [if_neg (show ¬ n = 0 by omega), if_neg h0, hd]
        simp
      rw [hdz, List.append_assoc]
      rfl

theorem repr_eq_decChars (n : Nat) : Nat.repr n = (decChars n).asString := by
  unfold Nat.repr Nat.toDigits
  rw [toDigitsCore_eq (n + 1) n [] (Nat.lt_succ_self n)]
  simp

theorem map_digitChar_inj :
    ∀ l1 l2 : List Nat, (∀ x ∈ l1, x < 10) → (∀ x ∈ l2, x < 10) →
      l1.map Nat.digitChar = l2.map Nat.digitChar → l1 = l2 := by
  intro l1
  induction l1 with
  | nil => intro l2 _ _ h; cases l2 with
    | nil => rfl
    | cons b t => simp at h
  | cons a t ih =>
    intro l2 h1 h2 h
    cases l2 with
    | nil => simp at h
    | cons b t2 =>
      simp only [List.map_cons, List.cons.injEq] at h
      have ha : a = b :=
        digitChar_inj a (h1 a (by simp)) b (h2 b (by simp)) h.1
      have ht : t = t2 :=
        ih t2 (fun x hx => h1 x (by simp [hx])) (fun x hx => h2 x (by simp [hx])) h.2
      rw [ha, ht]

theorem decChars_inj {m n : Nat} (h : decChars m = decChars n) : m = n := by
  by_cases hm : m = 0 <;> by_cases hn : n = 0
  · omega
  · exfalso
    simp only [decChars, if_pos hm, if_neg hn] at h
    have hmap : (Nat.digits 10 n).map Nat.digitChar = ['0'] := by
      have := congrArg List.reverse h
      simpa using this.symm
    have hdig : Nat.digits 10 n = [0] :=
      map_digitChar_inj (Nat.digits 10 n) [0]
        (fun x hx => Nat.digits_lt_base (by norm_num) hx)
        (fun x hx => by simp at hx; omega)
        (by rw [hmap]; decide)
    have := Nat.ofDigits_digits 10 n
    rw [hdig] at this
    simp [Nat.ofDigits] at this
    exact hn this.symm
  · exfalso
    simp only [decChars, if_neg hm, if_pos hn] at h
    have hmap : (Nat.digits 10 m).map Nat.digitChar = ['0'] := by
      have := congrArg List.reverse h
      simpa using this
    have hdig : Nat.digits 10 m = [0] :=
      map_digitChar_inj (Nat.digits 10 m) [0]
        (fun x hx => Nat.digits_lt_base (by norm_num) hx)
        (fun x hx => by simp at hx; omega)
        (by rw [hmap]; decide)
    have := Nat.ofDigits_digits 10 m
    rw [hdig] at this
    simp [Nat.ofDigits] at this
    exact hm this.symm
  · simp only [decChars, if_neg hm, if_neg hn] at h
    have hmap := congrArg List.reverse h
    simp only [List.reverse_reverse] at hmap
    have hdig : Nat.digits 10 m = Nat.digits 10 n :=
      map_digitChar_inj _ _ (fun x hx => Nat.digits_lt_base (by norm_num) hx)
        (fun x hx => Nat.digits_lt_base (by norm_num) hx) hmap
    have h1 := Nat.ofDigits_digits 10 m
    have h2 := Nat.ofDigits_digits 10 n
    rw [hdig] at h1
    omega

theorem natRepr_inj {m n : Nat} (h : Nat.repr m = Nat.repr n) : m = n := by
  rw [repr_eq_decChars, repr_eq_decChars] at h
  exact decChars_inj (List.asString_inj.mp h)

theorem empToken_inj {m n : Nat} (h : empToken m = empToken n) : m = n := by
  apply natRepr_inj
  unfold empToken at h
  have hd := congrArg String.data h
  simp only [String.data_append] at hd
  exact String.ext (List.append_cancel_left hd)

/-! ### Claims -/

/-- C1 counterexample: a sequence of exactly two frames, both with averaged
EAR below the threshold, contains a run of 2 consecutive low-EAR frames, yet
the detector returns false, because fewer than 3 frames decode.  This refutes
the claimed unconditional iff. -/
theorem c1_counterexample :
    HasBlinkRun [Frame.face 0, Frame.face 0] ∧
    is_live_from_base64_frames [Frame.face 0, Frame.face 0] = false := by
  constructor
  · exact ⟨[], [], Frame.face 0, Frame.face 0, rfl,
      by norm_num [Frame.isLow, EAR_THRESHOLD],
      by norm_num [Frame.isLow, EAR_THRESHOLD]⟩
  · decide

/-- C1 (amended): the liveness result is true iff, after discarding the
frames that fail base64/image decoding, at least 3 frames remain and the
decoded subsequence contains a run of 2 consecutive frames with averaged EAR
strictly below 0.21; a decoded frame with no detected landmarks is kept and
breaks such runs. -/
theorem c1_blink_run_characterization (fs : List Frame) :
    is_live_from_base64_frames fs = true ↔
      (3 ≤ (fs.filter Frame.isDecodable).length ∧
        HasBlinkRun (fs.filter Frame.isDecodable)) :=
  is_live_iff fs

/-- C10: the detector works on the decoded subsequence only: any sequence
with fewer than 3 decodable frames yields false, and inserting an
undecodable frame anywhere (in particular between two low-EAR frames) never
changes the verdict, so it does not reset the run counter. -/
theorem c10_decoded_subsequence (fs a b : List Frame)
    (h : (fs.filter Frame.isDecodable).length < 3) :
    is_live_from_base64_frames fs = false ∧
    is_live_from_base64_frames (a ++ Frame.undecodable :: b) =
      is_live_from_base64_frames (a ++ b) := by
  constructor
  · unfold is_live_from_base64_frames
    simp only [if_pos h]
  · have hfilter : (a ++ Frame.undecodable :: b).filter Frame.isDecodable
        = (a ++ b).filter Frame.isDecodable := by
      simp [List.filter_append, List.filter_cons, Frame.isDecodable]
    unfold is_live_from_base64_frames
    rw [hfilter]

/-- C10 witness: a single non-decoding-related short sequence returns false,
and an undecodable frame inserted between two low-EAR frames is immaterial. -/
theorem c10_witness :
    is_live_from_base64_frames [Frame.noFace] = false ∧
    is_live_from_base64_frames
        ([Frame.face 0] ++ Frame.undecodable :: [Frame.face 0, Frame.noFace]) =
      is_live_from_base64_frames ([Frame.face 0] ++ [Frame.face 0, Frame.noFace]) := by
  constructor
  · exact (c10_decoded_subsequence [Frame.noFace] [] [] (by decide)).1
  · exact (c10_decoded_subsequence [Frame.noFace] [Frame.face 0]
      [Frame.face 0, Frame.noFace] (by decide)).2

/-- C4 counterexample: a frame whose base64 payload does not decode makes
`compare_face_with_user` raise (`Except.error`) instead of returning a
no-match result: `_decode_base64_to_rgb` has no guard around `b64decode`. -/
theorem c4_counterexample :
    compare_face_with_user [] FaceFrame.badB64 = Except.error () ∧
    ∀ b : Bool, compare_face_with_user [] FaceFrame.badB64 ≠ Except.ok b := by
  constructor
  · rfl
  · intro b h
    simp [compare_face_with_user] at h

/-- C4 (amended): whenever the frame's base64 payload decodes, the face-match
operation never raises; an undecodable image or a frame with no detected face
yields the no-match result rather than an error. -/
theorem c4_no_raise_when_b64_decodes (known : List ℚ) (f : FaceFrame)
    (h : f ≠ FaceFrame.badB64) :
    (∃ b : Bool, compare_face_with_user known f = Except.ok b) ∧
    ((f = FaceFrame.badImage ∨ f = FaceFrame.noFace) →
      compare_face_with_user known f = Except.ok false) := by
  cases f with
  | badB64 => exact absurd rfl h
  | badImage => exact ⟨⟨false, rfl⟩, fun _ => rfl⟩
  | noFace => exact ⟨⟨false, rfl⟩, fun _ => rfl⟩
  | face enc =>
    refine ⟨⟨_, rfl⟩, ?_⟩
    rintro (h1 | h1) <;> cases h1

/-- C4 witness: a no-face frame concretely yields the no-match result. -/
theorem c4_witness :
    compare_face_with_user [] FaceFrame.noFace = Except.ok false :=
  (c4_no_raise_when_b64_decodes [] FaceFrame.noFace (by simp)).2 (Or.inr rfl)

theorem map_finalize_id (uid : Nat) (tok : String) (upd : Option String) :
    ∀ l : List UserRow, (∀ r ∈ l, r.id ≠ uid) →
      l.map (fun r => if r.id = uid then { r with qr_code := tok, updated_at := upd } else r)
        = l := by
  intro l hl
  induction l with
  | nil => rfl
  | cons x t ih =>
    simp only [List.map_cons]
    rw [if_neg (hl x (by simp)), ih (fun r hr => hl r (by simp [hr]))]

/-- C5: enrollment returns the token deterministically derived from the
assigned id (decimal `EMP:` token); that derivation is injective, so tokens
are unique across identities; and resolving the returned token immediately
afterwards yields the row holding the enrolled display name, embedding, and
expiry.  The two freshness hypotheses mirror what sqlite enforces: AUTOINCREMENT
never reassigns a live row id, and the UNIQUE column would make the
finalizing UPDATE raise if the id-derived token already existed. -/
theorem c5_enroll_token_roundtrip (st : UsersTable)
    (fn ln enc : String) (exp : Option String) (created tmp : String)
    (hid : ∀ r ∈ st.rows, r.id ≠ st.nextId)
    (hqr : ∀ r ∈ st.rows, r.qr_code ≠ empToken st.nextId) :
    (create_user st fn ln enc exp created tmp).1.2 =
      empToken (create_user st fn ln enc exp created tmp).1.1 ∧
    (∀ m n : Nat, empToken m = empToken n → m = n) ∧
    ∃ r : UserRow,
      get_user_by_qr (create_user st fn ln enc exp created tmp).2
          (create_user st fn ln enc exp created tmp).1.2 = some r ∧
      r.id = (create_user st fn ln enc exp created tmp).1.1 ∧
      r.name = full_name_of fn ln ∧ r.face_encoding = enc ∧ r.qr_expires_at = exp := by
  refine ⟨rfl, fun m n h => empToken_inj h, ?_⟩
  unfold create_user get_user_by_qr
  simp only [List.map_append, List.map_cons, List.map_nil, if_pos rfl]
  rw [map_finalize_id st.nextId _ _ st.rows hid]
  rw [List.find?_append]
  have hnone : st.rows.find? (fun r => decide (r.qr_code = empToken st.nextId)) = none := by
    rw [List.find?_eq_none]
    intro r hr
    simp [hqr r hr]
  rw [hnone]
  simp

/-- C5 witness: enrolling into an empty store returns token `EMP:1` and the
token resolves back to the enrolled record. -/
theorem c5_witness :
    (create_user ⟨[], 1⟩ "Jan" "Kowalski" "enc1" none "2024-01-01T00:00:00" "TMPX").1.2 =
      empToken (create_user ⟨[], 1⟩ "Jan" "Kowalski" "enc1" none "2024-01-01T00:00:00" "TMPX").1.1 ∧
    ∃ r : UserRow,
      get_user_by_qr (create_user ⟨[], 1⟩ "Jan" "Kowalski" "enc1" none "2024-01-01T00:00:00" "TMPX").2
          (create_user ⟨[], 1⟩ "Jan" "Kowalski" "enc1" none "2024-01-01T00:00:00" "TMPX").1.2 = some r ∧
      r.id = (create_user ⟨[], 1⟩ "Jan" "Kowalski" "enc1" none "2024-01-01T00:00:00" "TMPX").1.1 ∧
      r.name = full_name_of "Jan" "Kowalski" ∧ r.face_encoding = "enc1" ∧
      r.qr_expires_at = none := by
  have h := c5_enroll_token_roundtrip ⟨[], 1⟩ "Jan" "Kowalski" "enc1" none
      "2024-01-01T00:00:00" "TMPX" (by intro r hr; simp at hr) (by intro r hr; simp at hr)
  exact ⟨h.1, h.2.2⟩

theorem condHolds_iff (arg : Option String) (cond : String → Bool) (h : arg ≠ some "") :
    condHolds arg cond = true ↔ (∀ s, arg = some s → cond s = true) := by
  cases arg with
  | none => simp [condHolds]
  | some s =>
    have hs : s ≠ "" := fun hh => h (by rw [hh])
    simp [condHolds, if_neg hs]

theorem eventMatches_iff (start_iso end_iso status : Option String) (e : EventRow)
    (hs : start_iso ≠ some "") (he : end_iso ≠ some "") (hst : status ≠ some "") :
    eventMatches start_iso end_iso status e = true ↔
      ((∀ s, start_iso = some s → s ≤ e.timestamp) ∧
       (∀ s, end_iso = some s → e.timestamp ≤ s) ∧
       (∀ s, status = some s → e.status = s)) := by
  unfold eventMatches
  rw [Bool.and_eq_true, Bool.and_eq_true,
      condHolds_iff _ _ hs, condHolds_iff _ _ he, condHolds_iff _ _ hst]
  constructor
  · rintro ⟨⟨h1, h2⟩, h3⟩
    exact ⟨fun s hs2 => by simpa using h1 s hs2,
           fun s hs2 => by simpa using h2 s hs2,
           fun s hs2 => by simpa using h3 s hs2⟩
  · rintro ⟨h1, h2, h3⟩
    exact ⟨⟨fun s hs2 => by simpa using h1 s hs2,
            fun s hs2 => by simpa using h2 s hs2⟩,
           fun s hs2 => by simpa using h3 s hs2⟩

/-- C6: with pairwise-distinct row ids (the table's primary key), the audit
query returns exactly the stored events within the inclusive bounds and
matching the optional status, ordered by timestamp descending with ties
broken by larger id first.  The optional arguments, when present, are
nonempty strings (an instant or status is never the empty string, which
Python treats as an absent filter). -/
theorem c6_list_events (events : List EventRow) (start_iso end_iso status : Option String)
    (hids : List.Pairwise (fun a b => a.id ≠ b.id) events)
    (hs : start_iso ≠ some "") (he : end_iso ≠ some "") (hst : status ≠ some "") :
    (∀ e : EventRow, e ∈ list_events events start_iso end_iso status ↔
        (e ∈ events ∧ (∀ s, start_iso = some s → s ≤ e.timestamp) ∧
         (∀ s, end_iso = some s → e.timestamp ≤ s) ∧
         (∀ s, status = some s → e.status = s))) ∧
    List.Pairwise
      (fun a b => b.timestamp < a.timestamp ∨ (b.timestamp = a.timestamp ∧ b.id < a.id))
      (list_events events start_iso end_iso status) := by
  constructor
  · intro e
    unfold list_events
    rw [List.mem_insertionSort, List.mem_filter,
        eventMatches_iff start_iso end_iso status e hs he hst]
  · have hsorted : List.Pairwise eventOrder (list_events events start_iso end_iso status) :=
      List.sorted_insertionSort eventOrder _
    have hperm : List.Perm (list_events events start_iso end_iso status)
        (events.filter (eventMatches start_iso end_iso status)) :=
      List.perm_insertionSort eventOrder _
    have hneq : List.Pairwise (fun a b : EventRow => a.id ≠ b.id)
        (list_events events start_iso end_iso status) :=
      (List.Perm.pairwise_iff (fun hx => Ne.symm hx) hperm).mpr
        (hids.filter (eventMatches start_iso end_iso status))
    refine (hsorted.and hneq).imp ?_
    intro a b hab
    rcases hab with ⟨hord, hne⟩
    unfold eventOrder eventKey at hord
    rw [Prod.Lex.le_iff] at hord
    rcases hord with h1 | ⟨h1, h2⟩
    · exact Or.inl h1
    · right
      refine ⟨h1, ?_⟩
      have hne2 : b.id ≠ a.id := fun hx => hne (hx.symm)
      omega

/-- C6 witness: on three concrete events, a bounded query keeps the two rows
inside the range (both bounds inclusive) and drops the later row. -/
theorem c6_witness :
    sampleEv1 ∈ list_events [sampleEv2, sampleEv1, sampleEv3]
        (some "2024-01-01T00:00:00") (some "2024-01-03T00:00:00") none ∧
    sampleEv3 ∉ list_events [sampleEv2, sampleEv1, sampleEv3]
        (some "2024-01-01T00:00:00") (some "2024-01-03T00:00:00") none := by
  have h := c6_list_events [sampleEv2, sampleEv1, sampleEv3]
      (some "2024-01-01T00:00:00") (some "2024-01-03T00:00:00") none
      (by decide) (by decide) (by decide) (by decide)
  constructor
  · refine (h.1 sampleEv1).mpr ⟨by decide, ?_, ?_, ?_⟩
    · intro s hs2
      injection hs2 with h2
      rw [← h2, String.le_iff_toList_le]
      decide
    · intro s hs2
      injection hs2 with h2
      rw [← h2, String.le_iff_toList_le]
      decide
    · intro s hs2
      cases hs2
  · intro hmem
    have h3 := (h.1 sampleEv3).mp hmem
    have h4 := h3.2.2.1 "2024-01-03T00:00:00" rfl
    rw [String.le_iff_toList_le] at h4
    exact absurd h4 (by decide)

/-- C3: once the request is valid and live, the token resolves, and the
stored expiry parses as instant E, the request reaches `QR_EXPIRED` iff the
current instant is strictly after E; at exact equality it is not expired and
proceeds to the face-match stage.  The store is healthy (`insertOk`), since a
failing expiry audit write is C2's concern. -/
theorem c3_expiry_strict (req : Request) (d : Deps) (u : UserRow) (s : String) (E : Int)
    (hqr : qrOf req ≠ "") (hfr : req.frames ≠ [])
    (hlive : d.isLive req.frames = true)
    (huser : d.getUser (qrOf req) = some u)
    (hexp : u.qr_expires_at = some s) (hs : s ≠ "")
    (hparse : d.parseIso s = some E) (hins : d.insertOk = true) :
    ((verify req d).outcome = Outcome.QR_EXPIRED ↔ E < d.now) ∧
    (d.now = E → reachedFaceStage (verify req d).outcome = true) := by
  have hcond : ¬ (qrOf req = "" ∨ req.frames = []) := by
    rintro (h1 | h2)
    · exact hqr h1
    · exact hfr h2
  by_cases hE : E < d.now
  · have hver : verify req d =
        ⟨.QR_EXPIRED, some ("expired", 200),
          [mkEvent (some u.id) d.nowIso (normDirection req.direction) "FAIL"
            (some "QR_EXPIRED") (some (qrOf req)) req.frames.getLast?]⟩ := by
      unfold verify
      rw [if_neg hcond, if_neg (by simp [hlive]), huser]
      simp [hexp, hparse, hs, hins, hE]
    rw [hver]
    constructor
    · simp [hE]
    · intro hnow
      omega
  · have hface : reachedFaceStage (verify req d).outcome = true ∧
        (verify req d).outcome ≠ Outcome.QR_EXPIRED := by
      unfold verify
      rw [if_neg hcond, if_neg (by simp [hlive]), huser]
      simp only [hexp, hparse, if_neg hs, decide_eq_false hE, Bool.false_and,
        Bool.false_eq_true, if_neg, ite_false]
      cases hfc : d.faceCmp u.face_encoding (req.frames.getLast?.getD "") with
      | error e => simp [reachedFaceStage]
      | ok b => cases b <;> cases hi : d.insertOk <;> simp [reachedFaceStage]
    exact ⟨⟨fun h => absurd h hface.2, fun h => absurd h hE⟩, fun _ => hface.1⟩


theorem verify_missing (req : Request) (d : Deps) (h : qrOf req = "" ∨ req.frames = []) :
    verify req d = ⟨.MISSING_DATA, some ("error", 400),
      if d.insertOk then
        [mkEvent none d.nowIso (normDirection req.direction) "FAIL" (some "MISSING_DATA")
          (if qrOf req = "" then none else some (qrOf req)) req.frames.getLast?]
      else []⟩ := by
  unfold verify
  rw [if_pos h]

theorem verify_noblink (req : Request) (d : Deps)
    (h1 : ¬(qrOf req = "" ∨ req.frames = [])) (h2 : d.isLive req.frames = false) :
    verify req d =
      if d.insertOk then
        ⟨.NO_BLINK, some ("spoofing", 200),
          [mkEvent none d.nowIso (normDirection req.direction) "FAIL" (some "NO_BLINK")
            (some (qrOf req)) req.frames.getLast?]⟩
      else ⟨.NO_BLINK, none, []⟩ := by
  unfold verify
  rw [if_neg h1, if_pos h2]

theorem verify_unknown (req : Request) (d : Deps)
    (h1 : ¬(qrOf req = "" ∨ req.frames = []))
    (h2 : d.isLive req.frames = true) (h3 : d.getUser (qrOf req) = none) :
    verify req d =
      if d.insertOk then
        ⟨.UNKNOWN_QR, some ("fraud", 200),
          [mkEvent none d.nowIso (normDirection req.direction) "FAIL" (some "UNKNOWN_QR")
            (some (qrOf req)) req.frames.getLast?]⟩
      else ⟨.UNKNOWN_QR, none, []⟩ := by
  unfold verify
  rw [if_neg h1, if_neg (by simp [h2]), h3]

theorem verify_user (req : Request) (d : Deps) (u : UserRow)
    (h1 : ¬(qrOf req = "" ∨ req.frames = []))
    (h2 : d.isLive req.frames = true) (h3 : d.getUser (qrOf req) = some u) :
    verify req d =
      if expiredHitOf d u && d.insertOk then
        ⟨.QR_EXPIRED, some ("expired", 200),
          [mkEvent (some u.id) d.nowIso (normDirection req.direction) "FAIL"
            (some "QR_EXPIRED") (some (qrOf req)) req.frames.getLast?]⟩
      else
        match d.faceCmp u.face_encoding (req.frames.getLast?.getD "") with
        | .error _ => ⟨.FACE_RAISED, none, []⟩
        | .ok false =>
          if d.insertOk then
            ⟨.FACE_MISMATCH, some ("fraud", 200),
              [mkEvent (some u.id) d.nowIso (normDirection req.direction) "FAIL"
                (some "FACE_MISMATCH") (some (qrOf req)) req.frames.getLast?]⟩
          else ⟨.FACE_MISMATCH, none, []⟩
        | .ok true =>
          if d.insertOk then
            ⟨.OK, some ("success", 200),
              [mkEvent (some u.id) d.nowIso (normDirection req.direction) "OK" none
                (some (qrOf req)) none]⟩
          else ⟨.OK, none, []⟩ := by
  unfold verify expiredHitOf
  rw [if_neg h1, if_neg (by simp [h2]), h3]

/-- C3 witness: expiry instant 100, current instant 101: the concrete run
reaches `QR_EXPIRED`. -/
theorem c3_witness : (verify sampleReq liveDeps).outcome = Outcome.QR_EXPIRED := by
  have h := c3_expiry_strict sampleReq liveDeps sampleUser "2024-01-01T23:59:59" 100
      (by decide) (by decide) (by decide) (by decide) (by decide) (by decide) (by decide)
      (by decide)
  exact h.1.mpr (by decide)

/-- C7: when the stored expiry value fails to parse, the run is identical to
one in which the resolved identity has no expiry set (fail-open), and a valid
live request proceeds to the face-match stage. -/
theorem c7_expiry_failopen (req : Request) (d : Deps) (u : UserRow) (s : String)
    (huser : d.getUser (qrOf req) = some u)
    (hexp : u.qr_expires_at = some s)
    (hparse : d.parseIso s = none) :
    verify req d = verify req (withUserNoExpiry d (qrOf req) u) ∧
    (qrOf req ≠ "" → req.frames ≠ [] → d.isLive req.frames = true →
      reachedFaceStage (verify req d).outcome = true) := by
  have hhit : expiredHitOf d u = false := by
    simp [expiredHitOf, hexp, hparse]
  constructor
  · by_cases h1 : qrOf req = "" ∨ req.frames = []
    · rw [verify_missing req d h1,
          verify_missing req (withUserNoExpiry d (qrOf req) u) h1]
      rfl
    · by_cases h2 : d.isLive req.frames = false
      · rw [verify_noblink req d h1 h2,
            verify_noblink req (withUserNoExpiry d (qrOf req) u) h1 h2]
        rfl
      · have h2t : d.isLive req.frames = true := by
          cases hx : d.isLive req.frames
          · exact absurd hx h2
          · rfl
        rw [verify_user req d u h1 h2t huser,
            verify_user req (withUserNoExpiry d (qrOf req) u)
              { u with qr_expires_at := none } h1 h2t
              (by unfold withUserNoExpiry; simp)]
        rw [hhit,
            show expiredHitOf (withUserNoExpiry d (qrOf req) u)
                { u with qr_expires_at := none } = false from rfl]
        rfl
  · intro hqr hfr hlive
    have h1 : ¬ (qrOf req = "" ∨ req.frames = []) := by
      rintro (ha | hb)
      · exact hqr ha
      · exact hfr hb
    rw [verify_user req d u h1 hlive huser, hhit]
    simp only [Bool.false_and]
    cases hfc : d.faceCmp u.face_encoding (req.frames.getLast?.getD "") with
    | error e => simp [hfc, reachedFaceStage]
    | ok b =>
      cases b <;> cases hi : d.insertOk <;> simp [hfc, hi, reachedFaceStage]

/-- C7 witness: a concrete run whose stored expiry does not parse proceeds to
the face-match stage. -/
theorem c7_witness :
    reachedFaceStage (verify sampleReq badExpiryDeps).outcome = true := by
  have h := c7_expiry_failopen sampleReq badExpiryDeps
      { sampleUser with qr_expires_at := some "not-a-date" } "not-a-date"
      (by decide) (by decide) (by decide)
  exact h.2 (by decide) (by decide) (by decide)

/-- C2 counterexample: on the NO_BLINK path the audit-write failure is not
suppressed: with a healthy store the caller receives the spoofing verdict;
with a failing store no verification result is produced (unhandled error). -/
theorem c2_counterexample :
    (verify ⟨some "EMP:1", ["frame1"], some "IN"⟩ noDeps).response =
      some ("spoofing", 200) ∧
    (verify ⟨some "EMP:1", ["frame1"], some "IN"⟩
        { noDeps with insertOk := false }).response = none := by
  exact ⟨by decide, by decide⟩

/-- C2 (amended): the audit-write failure is suppressed only on the
MISSING_DATA path, where the response is unchanged; on the NO_BLINK,
UNKNOWN_QR, FACE_MISMATCH and success paths it escalates, so no verification
result is returned; and on the QR_EXPIRED path it is swallowed by the expiry
try/except, after which the request proceeds to the face-match stage instead
of returning the expired verdict. -/
theorem c2_audit_write_failure (req : Request) (d : Deps) :
    ((verify req { d with insertOk := true }).outcome = Outcome.MISSING_DATA →
      (verify req { d with insertOk := false }).response =
        (verify req { d with insertOk := true }).response) ∧
    ((verify req { d with insertOk := true }).outcome = Outcome.NO_BLINK ∨
     (verify req { d with insertOk := true }).outcome = Outcome.UNKNOWN_QR ∨
     (verify req { d with insertOk := true }).outcome = Outcome.FACE_MISMATCH ∨
     (verify req { d with insertOk := true }).outcome = Outcome.OK →
      (verify req { d with insertOk := false }).response = none) ∧
    ((verify req { d with insertOk := true }).outcome = Outcome.QR_EXPIRED →
      reachedFaceStage (verify req { d with insertOk := false }).outcome = true) := by
  by_cases h1 : qrOf req = "" ∨ req.frames = []
  · rw [verify_missing req { d with insertOk := true } h1,
        verify_missing req { d with insertOk := false } h1]
    refine ⟨fun _ => rfl, fun hc => ?_, fun hc => ?_⟩
    · rcases hc with h | h | h | h <;> simp at h
    · simp at hc
  · by_cases h2 : d.isLive req.frames = false
    · rw [verify_noblink req { d with insertOk := true } h1 h2,
          verify_noblink req { d with insertOk := false } h1 h2]
      refine ⟨fun hc => ?_, fun _ => rfl, fun hc => ?_⟩
      · simp at hc
      · simp at hc
    · have h2t : d.isLive req.frames = true := by
        cases hx : d.isLive req.frames
        · exact absurd hx h2
        · rfl
      cases hu : d.getUser (qrOf req) with
      | none =>
        rw [verify_unknown req { d with insertOk := true } h1 h2t hu,
            verify_unknown req { d with insertOk := false } h1 h2t hu]
        refine ⟨fun hc => ?_, fun _ => rfl, fun hc => ?_⟩
        · simp at hc
        · simp at hc
      | some u =>
        rw [verify_user req { d with insertOk := true } u h1 h2t hu,
            verify_user req { d with insertOk := false } u h1 h2t hu]
        by_cases hhit : expiredHitOf d u = true
        · rw [show expiredHitOf { d with insertOk := true } u = true from hhit,
              show expiredHitOf { d with insertOk := false } u = true from hhit]
          refine ⟨fun hc => ?_, fun hc => ?_, fun _ => ?_⟩
          · simp at hc
          · rcases hc with h | h | h | h <;> simp at h
          · show reachedFaceStage
              (match d.faceCmp u.face_encoding (req.frames.getLast?.getD "") with
               | .error _ => (⟨.FACE_RAISED, none, []⟩ : VerifyOutput)
               | .ok false => ⟨.FACE_MISMATCH, none, []⟩
               | .ok true => ⟨.OK, none, []⟩).outcome = true
            cases hfc : d.faceCmp u.face_encoding (req.frames.getLast?.getD "") with
            | error e => rfl
            | ok b => cases b <;> rfl
        · have hhitf : expiredHitOf d u = false := by
            cases hx : expiredHitOf d u
            · rfl
            · exact absurd hx hhit
          rw [show expiredHitOf { d with insertOk := true } u = false from hhitf,
              show expiredHitOf { d with insertOk := false } u = false from hhitf]
          cases hfc : d.faceCmp u.face_encoding (req.frames.getLast?.getD "") with
          | error e =>
            refine ⟨fun hc => by simp at hc, fun hc => ?_, fun hc => by simp at hc⟩
            rcases hc with h | h | h | h <;> simp at h
          | ok b =>
            cases b
            · exact ⟨fun hc => by simp at hc, fun _ => rfl, fun hc => by simp at hc⟩
            · exact ⟨fun hc => by simp at hc, fun _ => rfl, fun hc => by simp at hc⟩

/-- C2 witness: a concrete run on the UNKNOWN_QR path with a failing store
yields no verification result. -/
theorem c2_witness :
    (verify ⟨some "EMP:1", ["frame1"], some "IN"⟩
        { unknownDeps with insertOk := false }).response = none := by
  have h := c2_audit_write_failure ⟨some "EMP:1", ["frame1"], some "IN"⟩ unknownDeps
  exact h.2.1 (Or.inr (Or.inl (by decide)))

/-- C8: every audit event written with status `OK` carries no evidence image,
and, once input validation has passed, every failure event carries the last
submitted frame as evidence. -/
theorem c8_evidence_policy (req : Request) (d : Deps) :
    (∀ e ∈ (verify req d).written, e.status = "OK" → e.attempt_image_b64 = none) ∧
    (qrOf req ≠ "" → req.frames ≠ [] →
      ∀ e ∈ (verify req d).written, e.status = "FAIL" →
        e.attempt_image_b64 = req.frames.getLast?) := by
  by_cases h1 : qrOf req = "" ∨ req.frames = []
  · rw [verify_missing req d h1]
    constructor
    · cases hi : d.insertOk
      · simp
      · intro e he hst
        simp at he
        rw [he] at hst
        simp [mkEvent] at hst
    · intro hqr hfr
      rcases h1 with ha | hb
      · exact absurd ha hqr
      · exact absurd hb hfr
  · by_cases h2 : d.isLive req.frames = false
    · rw [verify_noblink req d h1 h2]
      cases hi : d.insertOk
      · simp
      · constructor
        · intro e he hst
          simp at he
          rw [he] at hst
          simp [mkEvent] at hst
        · intro hqr hfr e he hst
          simp at he
          rw [he]
          rfl
    · have h2t : d.isLive req.frames = true := by
        cases hx : d.isLive req.frames
        · exact absurd hx h2
        · rfl
      cases hu : d.getUser (qrOf req) with
      | none =>
        rw [verify_unknown req d h1 h2t hu]
        cases hi : d.insertOk
        · simp
        · constructor
          · intro e he hst
            simp at he
            rw [he] at hst
            simp [mkEvent] at hst
          · intro hqr hfr e he hst
            simp at he
            rw [he]
            rfl
      | some u =>
        rw [verify_user req d u h1 h2t hu]
        by_cases hhit : (expiredHitOf d u && d.insertOk) = true
        · rw [if_pos hhit]
          constructor
          · intro e he hst
            simp at he
            rw [he] at hst
            simp [mkEvent] at hst
          · intro hqr hfr e he hst
            simp at he
            rw [he]
            rfl
        · rw [if_neg hhit]
          cases hfc : d.faceCmp u.face_encoding (req.frames.getLast?.getD "") with
          | error e0 => simp
          | ok b =>
            cases b
            · cases hi : d.insertOk
              · simp
              · constructor
                · intro e he hst
                  simp at he
                  rw [he] at hst
                  simp [mkEvent] at hst
                · intro hqr hfr e he hst
                  simp at he
                  rw [he]
                  rfl
            · cases hi : d.insertOk
              · simp
              · constructor
                · intro e he hst
                  simp at he
                  rw [he]
                  rfl
                · intro hqr hfr e he hst
                  simp at he
                  rw [he] at hst
                  simp [mkEvent] at hst

/-- C8 witness: a concrete FACE_MISMATCH event carries the last frame as
evidence. -/
theorem c8_witness :
    (mkEvent (some 7) "2024-01-02T00:00:01" "IN" "FAIL" (some "FACE_MISMATCH")
        (some "EMP:7") (some "f3")).attempt_image_b64 =
      (["f1", "f2", "f3"] : List String).getLast? := by
  have h := c8_evidence_policy sampleReq mismatchDeps
  exact h.2 (by decide) (by decide) _ (by decide) (by decide)

/-- C9 counterexample: a request with no direction field at all is recorded
with direction `IN`, not `UNKNOWN`: the Python expression
`(data.get("direction") or "IN").upper()` defaults a missing or empty value
to `IN` before the recognition test. -/
theorem c9_counterexample :
    (⟨some "EMP:1", [], none⟩ : Request).direction = none ∧
    (verify ⟨some "EMP:1", [], none⟩ noDeps).written.map Event.direction = ["IN"] := by
  exact ⟨rfl, by decide⟩

/-- C9 (amended): the normalized direction is carried unchanged into the
audit event at every terminal stage; the normalization maps a missing or
empty direction to `IN` (Python falsy default), any other value whose
upper-casing is `IN`/`OUT` to that upper-cased value, and every remaining
value to `UNKNOWN`. -/
theorem c9_direction_normalization (req : Request) (d : Deps) :
    (∀ e ∈ (verify req d).written, e.direction = normDirection req.direction) ∧
    ((req.direction = none ∨ req.direction = some "") →
      normDirection req.direction = "IN") ∧
    (∀ s : String, s ≠ "" → (pyUpper s = "IN" ∨ pyUpper s = "OUT") →
      normDirection (some s) = pyUpper s) ∧
    (∀ s : String, s ≠ "" → pyUpper s ≠ "IN" → pyUpper s ≠ "OUT" →
      normDirection (some s) = "UNKNOWN") := by
  refine ⟨?_, ?_, ?_, ?_⟩
  · by_cases h1 : qrOf req = "" ∨ req.frames = []
    · rw [verify_missing req d h1]
      cases hi : d.insertOk
      · simp
      · intro e he
        simp at he
        rw [he]
        rfl
    · by_cases h2 : d.isLive req.frames = false
      · rw [verify_noblink req d h1 h2]
        cases hi : d.insertOk
        · simp
        · intro e he
          simp at he
          rw [he]
          rfl
      · have h2t : d.isLive req.frames = true := by
          cases hx : d.isLive req.frames
          · exact absurd hx h2
          · rfl
        cases hu : d.getUser (qrOf req) with
        | none =>
          rw [verify_unknown req d h1 h2t hu]
          cases hi : d.insertOk
          · simp
          · intro e he
            simp at he
            rw [he]
            rfl
        | some u =>
          rw [verify_user req d u h1 h2t hu]
          by_cases hhit : (expiredHitOf d u && d.insertOk) = true
          · rw [if_pos hhit]
            intro e he
            simp at he
            rw [he]
            rfl
          · rw [if_neg hhit]
            cases hfc : d.faceCmp u.face_encoding (req.frames.getLast?.getD "") with
            | error e0 => simp
            | ok b =>
              cases b
              · cases hi : d.insertOk
                · simp
                · intro e he
                  simp at he
                  rw [he]
                  rfl
              · cases hi : d.insertOk
                · simp
                · intro e he
                  simp at he
                  rw [he]
                  rfl
  · rintro (h | h) <;> rw [h] <;> rfl
  · intro s hs hup
    simp only [normDirection, if_neg hs]
    rw [if_pos hup]
  · intro s hs h3 h4
    have hnot : ¬ (pyUpper s = "IN" ∨ pyUpper s = "OUT") := by
      rintro (hx | hx)
      · exact h3 hx
      · exact h4 hx
    simp only [normDirection, if_neg hs, if_neg hnot]

/-- C9 witness: an unrecognized nonempty direction normalizes to `UNKNOWN`,
and a lowercase recognized one upper-cases to `IN`. -/
theorem c9_witness :
    normDirection (some "sideways") = "UNKNOWN" ∧
    normDirection (some "in") = "IN" := by
  have h := c9_direction_normalization ⟨none, [], none⟩ noDeps
  exact ⟨h.2.2.2 "sideways" (by decide) (by decide) (by decide),
         h.2.2.1 "in" (by decide) (Or.inl (by decide))⟩

end FaceQR
